import Mathlib

/-!
# Cart and session context of the food-ordering app

A shallow embedding of `src/context/User.js` (the `UserProvider` component).

* The two pieces of React state, `cart` and `restaurant`, and the
  `AsyncStorage` keys the component touches form the `State`.
* Every operation of the provider is written as the list of effects its body
  issues, in program order (`setCart`, `setRestaurant`, an in-place change of
  the array held by the `cart` state, `AsyncStorage.setItem`,
  `AsyncStorage.removeItem`).  `run` executes such a list: an awaited storage
  call that rejects aborts the rest of the body, exactly as a rejected
  `await` does in an `async` function without `try`.
* A JavaScript exception raised by the body (reading `.quantity` of
  `undefined`) is the `typeError` outcome; nothing has been executed by then.

* `logout` is the list of statements of its `try` block, run against the
  outcome of each collaborator (`AsyncStorage`, the Apollo cache, the store
  reset); the `catch` block logs whatever was thrown and returns.  `logout`
  itself does not assign `dataProfile`, which belongs to the profile query.

Numbers are modelled by `Int`: quantities are small integers, far from the
range where a JavaScript double stops being exact.
-/

namespace UserContext

/-! ## Data model -/

/-- Value found under the `quantity` property of a cart item: the property may be
missing (`undefined`), `null` (what `JSON.stringify` writes for `NaN`), `NaN`
(what arithmetic on `undefined` gives) or an integer. -/
inductive Quantity where
  | undefined
  | null
  | nan
  | num (n : Int)
deriving DecidableEq, Repr

/-- JavaScript `q + n` for a number `n` (used by `quantity += n`). -/
def Quantity.add : Quantity → Int → Quantity
  | .undefined, _ => .nan
  | .null, n => .num n
  | .nan, _ => .nan
  | .num i, n => .num (i + n)

/-- JavaScript `q - n` for a number `n` (used by `quantity -= 1`). -/
def Quantity.sub : Quantity → Int → Quantity
  | .undefined, _ => .nan
  | .null, n => .num (0 - n)
  | .nan, _ => .nan
  | .num i, n => .num (i - n)

/-- JavaScript `q > 0`. -/
def Quantity.gtZero : Quantity → Bool
  | .num i => decide (0 < i)
  | _ => false

/-- The quantity is an integer that is at least 1. -/
def Quantity.atLeastOne : Quantity → Bool
  | .num i => decide (1 ≤ i)
  | _ => false

/-- A line of the cart: the object `{ key, ...food }`.  `rest` holds the fields
the provider never reads. -/
structure CartItem where
  key : String
  _id : String
  quantity : Quantity
  rest : List (String × String)
deriving DecidableEq, Repr

/-- The `food` argument of `addCartItem`.  It is a plain object, so it may carry
a `key` property of its own. -/
structure Food where
  key : Option String
  _id : String
  quantity : Quantity
  rest : List (String × String)
deriving DecidableEq, Repr

/-- Text stored under `'cartItems'`: a text that `JSON.parse` decodes to an array
of items, the empty string, or another text that `JSON.parse` rejects. -/
inductive CartText where
  | encoded (items : List CartItem)
  | empty
  | malformed
deriving DecidableEq, Repr

/-- The three `AsyncStorage` keys used by the provider. -/
inductive StorageKey where
  | token
  | cartItems
  | restaurant
deriving DecidableEq, Repr

/-- Content of `AsyncStorage`, `none` for an absent key. -/
structure Storage where
  token : Option String
  cartItems : Option CartText
  restaurant : Option String
deriving DecidableEq, Repr

/-- React state of the provider (`cart` is the content of the array the state
holds) together with the persistent storage. -/
structure State where
  cart : List CartItem
  restaurant : Option String
  storage : Storage
deriving DecidableEq, Repr

/-- Ways an operation can fail: a JavaScript `TypeError`, a rejected storage
call, a `SyntaxError` of `JSON.parse`. -/
inductive JSError where
  | typeError
  | storageFailure
  | syntaxError
deriving DecidableEq, Repr

/-- State left by a call and the error its promise rejects with, if any. -/
structure Result where
  state : State
  error : Option JSError
deriving DecidableEq, Repr

/-! ## JSON -/

/-- What `JSON.stringify` keeps of an item: `NaN` is written as `null`, a
missing property stays missing, everything else is written as it is. -/
def jsonItem (c : CartItem) : CartItem :=
  match c.quantity with
  | .nan => { c with quantity := .null }
  | _ => c

/-- The text `JSON.stringify(items)`. -/
def jsonStringify (items : List CartItem) : CartText :=
  .encoded (items.map jsonItem)

/-- The call `JSON.parse(text)`. -/
def jsonParse : CartText → Except JSError (List CartItem)
  | .encoded items => .ok items
  | .empty => .error .syntaxError
  | .malformed => .error .syntaxError

/-! ## Effects -/

/-- One effect issued by the body of an operation. -/
inductive Effect where
  | setCart (items : List CartItem)
  | setRestaurant (id : Option String)
  | inPlace (items : List CartItem)
  | setItemCartItems (text : CartText)
  | setItemRestaurant (id : String)
  | removeItem (key : StorageKey)
deriving DecidableEq, Repr

/-- The effect is an awaited `AsyncStorage` call. -/
def Effect.isWrite : Effect → Bool
  | .setItemCartItems _ => true
  | .setItemRestaurant _ => true
  | .removeItem _ => true
  | _ => false

/-- The effect is a React state update (`setCart` or `setRestaurant`). -/
def Effect.isUpdate : Effect → Bool
  | .setCart _ => true
  | .setRestaurant _ => true
  | _ => false

/-- `AsyncStorage.removeItem(key)`. -/
def Storage.remove (st : Storage) : StorageKey → Storage
  | .token => { st with token := none }
  | .cartItems => { st with cartItems := none }
  | .restaurant => { st with restaurant := none }

/-- The state after one effect that went through. -/
def step (s : State) : Effect → State
  | .setCart items => { s with cart := items }
  | .setRestaurant id => { s with restaurant := id }
  | .inPlace items => { s with cart := items }
  | .setItemCartItems text => { s with storage := { s.storage with cartItems := some text } }
  | .setItemRestaurant id => { s with storage := { s.storage with restaurant := some id } }
  | .removeItem key => { s with storage := s.storage.remove key }

/-- Runs the effects in order.  `w` lists the outcomes of the successive storage
calls (`false`: the call rejects); calls beyond the list resolve.  A rejected
call changes nothing and the rest of the body is skipped. -/
def run (w : List Bool) (s : State) : List Effect → Result
  | [] => ⟨s, none⟩
  | e :: es =>
    if e.isWrite then
      match w with
      | false :: _ => ⟨s, some .storageFailure⟩
      | true :: w' => run w' (step s e) es
      | [] => run [] (step s e) es
    else run w (step s e) es

/-- Runs a body that may have thrown before issuing anything. -/
def exec (w : List Bool) (s : State) : Except JSError (List Effect) → Result
  | .error e => ⟨s, some e⟩
  | .ok prog => run w s prog

/-! ## Array helpers -/

/-- `Array.prototype.findIndex`, with `none` for `-1`. -/
def findIndex {α : Type} (p : α → Bool) : List α → Option Nat
  | [] => none
  | x :: xs => if p x then some 0 else (findIndex p xs).map (· + 1)

/-- Replaces the element at index `i` by its image under `f` (an assignment to a
property of `xs[i]`). -/
def updateAt {α : Type} (f : α → α) : Nat → List α → List α
  | _, [] => []
  | 0, x :: xs => f x :: xs
  | i + 1, x :: xs => x :: updateAt f i xs

/-! ## Operations of the provider -/

/-- Body of `addQuantity(key, quantity = 1)`. -/
def addQuantityProg (cart : List CartItem) (key : String) (quantity : Option Int) :
    Except JSError (List Effect) :=
  match findIndex (fun c => c.key == key) cart with
  | none => .error .typeError
  | some cartIndex =>
    let cart1 := updateAt
      (fun c => { c with quantity := c.quantity.add (quantity.getD 1) }) cartIndex cart
    .ok [.inPlace cart1, .setCart cart1, .setItemCartItems (jsonStringify cart1)]

/-- Body of `deleteItem(key)`. -/
def deleteItemProg (cart : List CartItem) (key : String) : Except JSError (List Effect) :=
  match findIndex (fun c => c.key == key) cart with
  | none => .ok []
  | some cartIndex =>
    let cart1 := cart.eraseIdx cartIndex
    let items := cart1.filter (fun c => c.quantity.gtZero)
    .ok ([.inPlace cart1, .setCart items]
      ++ (if items.length = 0 then [.setRestaurant none] else [])
      ++ [.setItemCartItems (jsonStringify items)])

/-- Body of `removeQuantity(key)`. -/
def removeQuantityProg (cart : List CartItem) (key : String) : Except JSError (List Effect) :=
  match findIndex (fun c => c.key == key) cart with
  | none => .error .typeError
  | some cartIndex =>
    let cart1 := updateAt (fun c => { c with quantity := c.quantity.sub 1 }) cartIndex cart
    let items := cart1.filter (fun c => c.quantity.gtZero)
    .ok ([.inPlace cart1, .setCart items]
      ++ (if items.length = 0 then [.setRestaurant none] else [])
      ++ [.setItemCartItems (jsonStringify items)])

/-- The object `{ key: uuid.v4(), ...food }`: a `key` property of `food` comes
later in the literal and replaces the generated one. -/
def newItem (uuid : String) (food : Food) : CartItem :=
  { key := food.key.getD uuid, _id := food._id, quantity := food.quantity, rest := food.rest }

/-- Body of `addCartItem(food, clearFlag)`; `uuid` is the value `uuid.v4()`
returns.  Without `clearFlag` the push goes to the array held by the state. -/
def addCartItemProg (cart : List CartItem) (uuid : String) (food : Food) (clearFlag : Bool) :
    Except JSError (List Effect) :=
  let cartItems := (if clearFlag then [] else cart) ++ [newItem uuid food]
  .ok ((if clearFlag then [] else [.inPlace cartItems])
    ++ [.setItemCartItems (jsonStringify cartItems), .setCart cartItems])

/-- Body of `updateCart(cart)`. -/
def updateCartProg (cart : List CartItem) : Except JSError (List Effect) :=
  .ok [.setCart cart, .setItemCartItems (jsonStringify cart)]

/-- Body of `setCartRestaurant(id)`. -/
def setCartRestaurantProg (id : String) : Except JSError (List Effect) :=
  .ok [.setRestaurant (some id), .setItemRestaurant id]

/-- Body of `clearCart()`. -/
def clearCartProg : Except JSError (List Effect) :=
  .ok [.setCart [], .setRestaurant none, .removeItem .cartItems, .removeItem .restaurant]

/-- The call `addQuantity(key, quantity)`. -/
def addQuantity (w : List Bool) (s : State) (key : String) (quantity : Option Int) : Result :=
  exec w s (addQuantityProg s.cart key quantity)

/-- The call `deleteItem(key)`. -/
def deleteItem (w : List Bool) (s : State) (key : String) : Result :=
  exec w s (deleteItemProg s.cart key)

/-- The call `removeQuantity(key)`. -/
def removeQuantity (w : List Bool) (s : State) (key : String) : Result :=
  exec w s (removeQuantityProg s.cart key)

/-- The call `addCartItem(food, clearFlag)`. -/
def addCartItem (w : List Bool) (s : State) (uuid : String) (food : Food) (clearFlag : Bool) :
    Result :=
  exec w s (addCartItemProg s.cart uuid food clearFlag)

/-- The call `updateCart(cart)`. -/
def updateCart (w : List Bool) (s : State) (cart : List CartItem) : Result :=
  exec w s (updateCartProg cart)

/-- The call `setCartRestaurant(id)`. -/
def setCartRestaurant (w : List Bool) (s : State) (id : String) : Result :=
  exec w s (setCartRestaurantProg id)

/-- The call `clearCart()`. -/
def clearCart (w : List Bool) (s : State) : Result :=
  exec w s clearCartProg

/-- The startup effect: both keys are read, then, if the component is still
mounted (`isSubscribed`), `setRestaurant(restaurant || null)` and
`setCart(cart ? JSON.parse(cart) : [])`.  An empty string is falsy. -/
def startupLoad (isSubscribed : Bool) (s : State) : Result :=
  let restaurant := s.storage.restaurant
  let cart := s.storage.cartItems
  if isSubscribed then
    let s1 := { s with restaurant := restaurant.filter (fun r => r != "") }
    match cart with
    | none => ⟨{ s1 with cart := [] }, none⟩
    | some .empty => ⟨{ s1 with cart := [] }, none⟩
    | some text =>
      match jsonParse text with
      | .ok items => ⟨{ s1 with cart := items }, none⟩
      | .error e => ⟨s1, some e⟩
  else ⟨s, none⟩

/-! ## Sequences of quantity calls -/

/-- A call to one of the two quantity operations. -/
inductive Call where
  | addQuantity (key : String) (quantity : Option Int)
  | removeQuantity (key : String)
deriving DecidableEq, Repr

/-- The key the call names. -/
def Call.key : Call → String
  | .addQuantity key _ => key
  | .removeQuantity key => key

/-- Performs the call; `w` gives the outcomes of its storage calls. -/
def Call.apply (w : List Bool) (s : State) : Call → Result
  | .addQuantity key quantity => UserContext.addQuantity w s key quantity
  | .removeQuantity key => UserContext.removeQuantity w s key

/-- Every item of the cart has an integer quantity that is at least 1. -/
def allAtLeastOne (cart : List CartItem) : Bool :=
  cart.all (fun c => c.quantity.atLeastOne)

/-! ## Predicates used by the statements -/

/-- No React state update is issued once the first storage call has been issued. -/
def memoryFirst (prog : List Effect) : Bool :=
  (prog.dropWhile (fun e => !e.isWrite)).all (fun e => !e.isUpdate)

/-- The same for a body that may throw before issuing anything. -/
def memoryFirstBody : Except JSError (List Effect) → Bool
  | .error _ => true
  | .ok prog => memoryFirst prog

/-! ## Queries of the provider -/

/-- The object `checkItemCart` returns; `key` is missing in the not-found answer. -/
structure CheckResult where
  exist : Bool
  quantity : Quantity
  key : Option String
deriving DecidableEq, Repr

/-- The value `checkItemCart(itemId)` returns.  Reading a property of an element
that is not there would throw. -/
def checkItemCartValue (cart : List CartItem) (itemId : String) : Except JSError CheckResult :=
  match findIndex (fun c => c._id == itemId) cart with
  | none => .ok { exist := false, quantity := .num 0, key := none }
  | some cartIndex =>
    match cart.get? cartIndex with
    | none => .error .typeError
    | some c => .ok { exist := true, quantity := c.quantity, key := some c.key }

/-- Answer of a query together with the state it leaves. -/
structure QueryResult where
  state : State
  value : Except JSError CheckResult

/-- The call `checkItemCart(itemId)`: it issues no effect. -/
def checkItemCart (s : State) (itemId : String) : QueryResult :=
  { state := (run [] s []).state, value := checkItemCartValue s.cart itemId }

/-! ## Sequences of cart operations -/

/-- A call to one of the cart operations. -/
inductive CartOp where
  | addCartItem (uuid : String) (food : Food) (clearFlag : Bool)
  | addQuantity (key : String) (quantity : Option Int)
  | removeQuantity (key : String)
  | deleteItem (key : String)
  | updateCart (cart : List CartItem)
  | clearCart
deriving DecidableEq, Repr

/-- Performs the operation with every storage call resolving. -/
def CartOp.apply (s : State) : CartOp → Result
  | .addCartItem uuid food clearFlag => UserContext.addCartItem [] s uuid food clearFlag
  | .addQuantity key quantity => UserContext.addQuantity [] s key quantity
  | .removeQuantity key => UserContext.removeQuantity [] s key
  | .deleteItem key => UserContext.deleteItem [] s key
  | .updateCart cart => UserContext.updateCart [] s cart
  | .clearCart => UserContext.clearCart [] s

/-- The integer a quantity stands for; a quantity that is not an integer has none
and counts for nothing. -/
def Quantity.value : Quantity → Int
  | .num i => i
  | _ => 0

/-- The `location` of the location context.  The coordinates are only copied by
the provider and are kept as integers; `_id` is present on a saved address. -/
structure Location where
  label : String
  latitude : Int
  longitude : Int
  deliveryAddress : Option String
  _id : Option String
deriving DecidableEq, Repr

/-- The fields of `dataProfile.profile` that `logout` reads. -/
structure Profile where
  __typename : String
  _id : String
deriving DecidableEq, Repr

/-- What the component sees besides its own state: the cart state and storage,
the token of the auth context, the location, `dataProfile` of the profile
query (`none`: `undefined`, `some none`: an object whose `profile` is `null`),
the ids evicted from the Apollo cache and the number of `resetStore` calls that
went through. -/
structure Context where
  cartState : State
  token : Option String
  location : Location
  dataProfile : Option (Option Profile)
  evicted : List String
  resets : Nat
deriving DecidableEq, Repr

/-- Outcome of each collaborator call of one `logout` (`false`: it fails). -/
structure Outcomes where
  removeItem : Bool
  evict : Bool
  resetStore : Bool
deriving DecidableEq, Repr

/-- What can be thrown inside the `try` block of `logout`. -/
inductive LogoutFailure where
  | js (e : JSError)
  | evictFailed
  | resetStoreFailed
deriving DecidableEq, Repr

/-- One statement of the body of `logout`; `throw` stands for an expression whose
evaluation throws. -/
inductive SessionEffect where
  | removeItem (key : StorageKey)
  | setToken (token : Option String)
  | setLocation (location : Location)
  | throw (e : JSError)
  | evict (id : String)
  | resetStore
deriving DecidableEq, Repr

/-- JavaScript truthiness of an optional string: present and not empty. -/
def truthy : Option String → Bool
  | some v => v != ""
  | none => false

/-- The `try` block of `logout`, in program order.  The argument of
`client.cache.evict` reads `dataProfile.profile.__typename`, which throws a
`TypeError` when `dataProfile` is `undefined` or its `profile` is `null`. -/
def logoutProg (location : Location) (dataProfile : Option (Option Profile)) :
    List SessionEffect :=
  [.removeItem .token, .setToken none]
    ++ (if truthy location._id then
          [.setLocation { label := "Selected Location", latitude := location.latitude,
                          longitude := location.longitude,
                          deliveryAddress := location.deliveryAddress, _id := none }]
        else [])
    ++ [match dataProfile with
        | some (some profile) => .evict (profile.__typename ++ ":" ++ profile._id)
        | _ => .throw .typeError]
    ++ [.resetStore]

/-- The exception a statement raises under the outcomes `o`, if any. -/
def SessionEffect.failure (o : Outcomes) : SessionEffect → Option LogoutFailure
  | .removeItem _ => if o.removeItem then none else some (.js .storageFailure)
  | .throw e => some (.js e)
  | .evict _ => if o.evict then none else some .evictFailed
  | .resetStore => if o.resetStore then none else some .resetStoreFailed
  | _ => none

/-- The context after a statement that went through. -/
def sessionStep (a : Context) : SessionEffect → Context
  | .removeItem key =>
    { a with cartState := { a.cartState with storage := a.cartState.storage.remove key } }
  | .setToken token => { a with token := token }
  | .setLocation location => { a with location := location }
  | .throw _ => a
  | .evict id => { a with evicted := id :: a.evicted }
  | .resetStore => { a with resets := a.resets + 1 }

/-- Runs the statements in order up to the first one that throws; returns the
context reached and the exception. -/
def runSession (o : Outcomes) (a : Context) : List SessionEffect → Context × Option LogoutFailure
  | [] => (a, none)
  | e :: es =>
    match e.failure o with
    | some f => (a, some f)
    | none => runSession o (sessionStep a e) es

/-- What a `logout` call leaves: the context, the error its promise rejects with
(`thrown`) and the error the `catch` block logged. -/
structure LogoutResult where
  context : Context
  thrown : Option LogoutFailure
  logged : Option LogoutFailure
deriving DecidableEq, Repr

/-- The call `logout()`: the body runs inside `try`, the `catch` block logs the
error and returns. -/
def logout (o : Outcomes) (a : Context) : LogoutResult :=
  match runSession o a (logoutProg a.location a.dataProfile) with
  | (a1, none) => { context := a1, thrown := none, logged := none }
  | (a1, some f) => { context := a1, thrown := none, logged := some f }

/-- Truthiness of the `isLoggedIn` entry of the provider value,
`!!token && dataProfile && !!dataProfile.profile`. -/
def isLoggedIn (a : Context) : Bool :=
  truthy a.token &&
    (match a.dataProfile with
     | some (some _) => true
     | _ => false)

/-- The statement is an `AsyncStorage` call on `key`. -/
def SessionEffect.touches (key : StorageKey) : SessionEffect → Bool
  | .removeItem k => k == key
  | _ => false

/-! ## Lemmas on the helpers -/

theorem findIndex_eq_none {α : Type} (p : α → Bool) (l : List α) :
    findIndex p l = none ↔ ∀ x ∈ l, p x = false := by
  induction l with
  | nil => simp [findIndex]
  | cons x xs ih =>
    by_cases h : p x = true
    · simp [findIndex, h]
    · simp [findIndex, h, ih]

theorem findIndex_eq_some {α : Type} (p : α → Bool) (l : List α) (i : Nat)
    (h : findIndex p l = some i) :
    ∃ pre x post, l = pre ++ x :: post ∧ pre.length = i ∧ p x = true ∧
      ∀ y ∈ pre, p y = false := by
  induction l generalizing i with
  | nil => simp [findIndex] at h
  | cons a as ih =>
    by_cases ha : p a = true
    · simp [findIndex, ha] at h
      exact ⟨[], a, as, by simp, by simpa using h, ha, by simp⟩
    · simp [findIndex, ha] at h
      obtain ⟨j, hj, rfl⟩ := h
      obtain ⟨pre, x, post, hl, hlen, hx, hpre⟩ := ih j hj
      refine ⟨a :: pre, x, post, by simp [hl], by simp [hlen], hx, ?_⟩
      intro y hy
      rcases List.mem_cons.mp hy with rfl | hy
      · simpa using ha
      · exact hpre y hy

theorem updateAt_append {α : Type} (f : α → α) (pre post : List α) (x : α) :
    updateAt f pre.length (pre ++ x :: post) = pre ++ f x :: post := by
  induction pre with
  | nil => simp [updateAt]
  | cons a as ih => simp [updateAt, ih]

theorem eraseIdx_append_length {α : Type} (pre post : List α) (x : α) :
    (pre ++ x :: post).eraseIdx pre.length = pre ++ post := by
  induction pre with
  | nil => simp
  | cons a as ih => simp [ih]

/-- The in-memory cart after `removeQuantity` on a present key, whatever the
storage does. -/
theorem removeQuantity_cart (w : List Bool) (s : State) (key : String)
    (i : Nat) (h : findIndex (fun c => c.key == key) s.cart = some i) :
    (removeQuantity w s key).state.cart =
      (updateAt (fun c => { c with quantity := c.quantity.sub 1 }) i s.cart).filter
        (fun c => c.quantity.gtZero) := by
  simp only [removeQuantity, removeQuantityProg, h, exec]
  rcases w with _ | ⟨_ | _, w⟩ <;> split_ifs <;> simp [run, step, Effect.isWrite]

theorem findIndex_isSome_of_any {α : Type} (p : α → Bool) (l : List α)
    (h : l.any p = true) : ∃ i, findIndex p l = some i := by
  cases hf : findIndex p l with
  | some i => exact ⟨i, rfl⟩
  | none =>
    rw [findIndex_eq_none] at hf
    obtain ⟨x, hx, hpx⟩ := List.any_eq_true.mp h
    rw [hf x hx] at hpx
    cases hpx

theorem findIndex_eq_none_of_any {α : Type} (p : α → Bool) (l : List α)
    (h : l.any p = false) : findIndex p l = none := by
  rw [findIndex_eq_none]
  intro x hx
  cases hpx : p x with
  | false => rfl
  | true =>
    have : l.any p = true := List.any_eq_true.mpr ⟨x, hx, hpx⟩
    rw [h] at this
    cases this

/-- What the common tail of `deleteItem` and `removeQuantity` leaves: the cart
and the restaurant are set before the write, the storage changes only when the
write resolves. -/
theorem run_drain (w : List Bool) (s : State) (cart1 items : List CartItem) :
    (run w s ([.inPlace cart1, .setCart items]
      ++ (if items.length = 0 then [.setRestaurant none] else [])
      ++ [.setItemCartItems (jsonStringify items)])).state.cart = items ∧
    (run w s ([.inPlace cart1, .setCart items]
      ++ (if items.length = 0 then [.setRestaurant none] else [])
      ++ [.setItemCartItems (jsonStringify items)])).state.restaurant =
        (if items.length = 0 then none else s.restaurant) ∧
    (run [] s ([.inPlace cart1, .setCart items]
      ++ (if items.length = 0 then [.setRestaurant none] else [])
      ++ [.setItemCartItems (jsonStringify items)])).state.storage =
        { s.storage with cartItems := some (jsonStringify items) } ∧
    (run [] s ([.inPlace cart1, .setCart items]
      ++ (if items.length = 0 then [.setRestaurant none] else [])
      ++ [.setItemCartItems (jsonStringify items)])).error = none := by
  refine ⟨?_, ?_, ?_, ?_⟩
  · rcases w with _ | ⟨_ | _, w⟩ <;> split_ifs <;> simp [run, step, Effect.isWrite]
  · rcases w with _ | ⟨_ | _, w⟩ <;> split_ifs <;> simp [run, step, Effect.isWrite]
  · split_ifs <;> simp [run, step, Effect.isWrite]
  · split_ifs <;> simp [run, step, Effect.isWrite]

/-- The in-memory cart after `addCartItem`: the new item is appended, except
that a rejected write under `clearFlag` leaves the cart as it was. -/
theorem addCartItem_cart (w : List Bool) (s : State) (uuid : String) (food : Food)
    (clearFlag : Bool) :
    (addCartItem w s uuid food clearFlag).state.cart =
      if clearFlag then (if w.head? = some false then s.cart else [newItem uuid food])
      else s.cart ++ [newItem uuid food] := by
  rcases w with _ | ⟨_ | _, w⟩ <;> cases clearFlag <;>
    simp [addCartItem, addCartItemProg, exec, run, step, Effect.isWrite]

/-! ## Quantity positivity -/

/-- C2, as stated, fails: the payload is spread after the generated key, so a
payload that carries the key `k` of an item already in the cart yields a second
item with key `k`, although the generated key `u` is fresh. -/
theorem key_uniqueness_counterexample :
    ([(⟨"k", "pizza1", .num 1, []⟩ : CartItem)].map (fun c => c.key)).Nodup ∧
    "u" ∉ [(⟨"k", "pizza1", .num 1, []⟩ : CartItem)].map (fun c => c.key) ∧
    (newItem "u" ⟨some "k", "pizza1", .num 1, []⟩).key ∈
      [(⟨"k", "pizza1", .num 1, []⟩ : CartItem)].map (fun c => c.key) ∧
    ¬ ((addCartItem [] ⟨[⟨"k", "pizza1", .num 1, []⟩], some "R1", ⟨none, none, some "R1"⟩⟩
      "u" ⟨some "k", "pizza1", .num 1, []⟩ false).state.cart.map (fun c => c.key)).Nodup := by
  decide

/-- C2 (amended): for every cart whose keys are pairwise distinct, every food
payload that has no `key` property of its own and either value of `clearFlag`,
if the generated key is not a key of the cart then the key of the appended item
differs from the key of every item already in the cart and the keys of the
resulting cart are pairwise distinct (whatever the storage write does). -/
theorem key_uniqueness_without_payload_key (w : List Bool) (s : State) (uuid : String)
    (food : Food) (clearFlag : Bool)
    (hnodup : (s.cart.map (fun c => c.key)).Nodup)
    (hfresh : uuid ∉ s.cart.map (fun c => c.key))
    (hfood : food.key = none) :
    (newItem uuid food).key ∉ s.cart.map (fun c => c.key) ∧
    ((addCartItem w s uuid food clearFlag).state.cart.map (fun c => c.key)).Nodup := by
  have hkey : (newItem uuid food).key = uuid := by simp [newItem, hfood]
  refine ⟨by rw [hkey]; exact hfresh, ?_⟩
  rw [addCartItem_cart]
  cases clearFlag with
  | true =>
    by_cases hw : w.head? = some false
    · simpa [hw] using hnodup
    · simp [hw]
  | false =>
    simp only [Bool.false_eq_true, if_false, List.map_append, List.map_cons, List.map_nil, hkey]
    rw [List.nodup_append]
    refine ⟨hnodup, by simp, ?_⟩
    intro a ha hb
    have : a = uuid := by simpa using hb
    exact hfresh (this ▸ ha)

/-- Witness of C2 (amended). -/
theorem key_uniqueness_without_payload_key_witness :
    ([(⟨"k", "pizza1", .num 1, []⟩ : CartItem)].map (fun c => c.key)).Nodup ∧
    "u" ∉ [(⟨"k", "pizza1", .num 1, []⟩ : CartItem)].map (fun c => c.key) ∧
    (⟨none, "pizza1", .num 1, []⟩ : Food).key = none ∧
    (newItem "u" ⟨none, "pizza1", .num 1, []⟩).key ∉
      [(⟨"k", "pizza1", .num 1, []⟩ : CartItem)].map (fun c => c.key) ∧
    ((addCartItem [] ⟨[⟨"k", "pizza1", .num 1, []⟩], some "R1", ⟨none, none, some "R1"⟩⟩
      "u" ⟨none, "pizza1", .num 1, []⟩ false).state.cart.map (fun c => c.key)).Nodup :=
  ⟨by decide, by decide, rfl,
    key_uniqueness_without_payload_key []
      ⟨[⟨"k", "pizza1", .num 1, []⟩], some "R1", ⟨none, none, some "R1"⟩⟩
      "u" ⟨none, "pizza1", .num 1, []⟩ false (by decide) (by decide) rfl⟩

/-! ## Empty-cart invariant -/

/-- C4 (what the code does at the failing input): the cart holds one item of
quantity 1 and restaurant `R1` is set in memory and in storage.  `deleteItem`
and `removeQuantity` each drain the cart and set the in-memory restaurant to
`null`, but the only storage key they write is `cartItems`; the startup load
that follows finds `R1` under `restaurant` and brings it back, so the reloaded
state differs from the state the drain left. -/
theorem drain_leaves_persisted_restaurant :
    (deleteItem [] ⟨[⟨"k", "pizza1", .num 1, []⟩], some "R1",
        ⟨none, some (jsonStringify [⟨"k", "pizza1", .num 1, []⟩]), some "R1"⟩⟩ "k")
      = ⟨⟨[], none, ⟨none, some (.encoded []), some "R1"⟩⟩, none⟩ ∧
    (removeQuantity [] ⟨[⟨"k", "pizza1", .num 1, []⟩], some "R1",
        ⟨none, some (jsonStringify [⟨"k", "pizza1", .num 1, []⟩]), some "R1"⟩⟩ "k")
      = ⟨⟨[], none, ⟨none, some (.encoded []), some "R1"⟩⟩, none⟩ ∧
    (startupLoad true ⟨[], none, ⟨none, some (.encoded []), some "R1"⟩⟩).state.cart = [] ∧
    (startupLoad true ⟨[], none, ⟨none, some (.encoded []), some "R1"⟩⟩).state.restaurant
      = some "R1" := by
  decide

/-! ## Persistence round trip -/

/-- C6: for every cart and every key that no item of the cart carries,
`addQuantity(key, amount)` and `removeQuantity(key)` each fail (the promise
rejects with a `TypeError`) and leave the in-memory items, the restaurant and
the persistent storage exactly as they were. -/
theorem missing_key_rejects_unchanged (w : List Bool) (s : State) (key : String)
    (quantity : Option Int) (hkey : s.cart.any (fun c => c.key == key) = false) :
    addQuantity w s key quantity = ⟨s, some .typeError⟩ ∧
    removeQuantity w s key = ⟨s, some .typeError⟩ := by
  have h := findIndex_eq_none_of_any _ _ hkey
  simp [addQuantity, addQuantityProg, removeQuantity, removeQuantityProg, h, exec]

/-- Witness of C6: key `x` on a cart whose only key is `k`. -/
theorem missing_key_rejects_unchanged_witness :
    ([(⟨"k", "pizza1", .num 1, []⟩ : CartItem)].any (fun c => c.key == "x") = false) ∧
    addQuantity [] ⟨[⟨"k", "pizza1", .num 1, []⟩], some "R1", ⟨none, none, some "R1"⟩⟩ "x"
        (some 2)
      = ⟨⟨[⟨"k", "pizza1", .num 1, []⟩], some "R1", ⟨none, none, some "R1"⟩⟩,
          some .typeError⟩ :=
  ⟨by decide,
    (missing_key_rejects_unchanged []
      ⟨[⟨"k", "pizza1", .num 1, []⟩], some "R1", ⟨none, none, some "R1"⟩⟩ "x" (some 2)
      (by decide)).1⟩

/-! ## deleteItem -/

/-- With pairwise distinct keys, removing the first item of key `key` removes
every item of key `key`. -/
theorem eraseIdx_eq_filter_of_nodup (cart : List CartItem) (key : String) (i : Nat)
    (hnodup : (cart.map (fun c => c.key)).Nodup)
    (hi : findIndex (fun c => c.key == key) cart = some i) :
    cart.eraseIdx i = cart.filter (fun c => c.key != key) := by
  obtain ⟨pre, x, post, hl, hlen, hx, hpre⟩ := findIndex_eq_some _ _ _ hi
  subst hl
  subst hlen
  have hxk : x.key = key := by simpa using hx
  rw [eraseIdx_append_length]
  simp only [List.map_append, List.map_cons] at hnodup
  have hpost : ∀ y ∈ post, y.key ≠ key := by
    intro y hy hyk
    have h1 := (List.nodup_append.mp hnodup).2.1
    have h2 := (List.nodup_cons.mp h1).1
    apply h2
    rw [hxk, ← hyk]
    exact List.mem_map_of_mem _ hy
  have hpre1 : pre.filter (fun c => c.key != key) = pre := by
    rw [List.filter_eq_self]
    intro y hy
    have := hpre y hy
    simpa using this
  have hpost1 : post.filter (fun c => c.key != key) = post := by
    rw [List.filter_eq_self]
    intro y hy
    simpa using hpost y hy
  simp [List.filter_append, List.filter_cons, hxk, hpre1, hpost1]

/-- C7, as stated, fails: `deleteItem` also filters the remaining items by
`quantity > 0`.  With an item `a` that has no quantity (a payload added without
one) and an item `b` of quantity 1, `deleteItem(b)` leaves the empty cart, not
the cart holding `a`. -/
theorem deleteItem_exactly_one_counterexample :
    ([(⟨"a", "pizza1", .undefined, []⟩ : CartItem), ⟨"b", "burger1", .num 1, []⟩].map
      (fun c => c.key)).Nodup ∧
    (addCartItem [] (addCartItem [] ⟨[], none, ⟨none, none, none⟩⟩ "a"
        ⟨none, "pizza1", .undefined, []⟩ false).state "b"
        ⟨none, "burger1", .num 1, []⟩ false).state.cart
      = [⟨"a", "pizza1", .undefined, []⟩, ⟨"b", "burger1", .num 1, []⟩] ∧
    (deleteItem [] ⟨[⟨"a", "pizza1", .undefined, []⟩, ⟨"b", "burger1", .num 1, []⟩], some "R1",
      ⟨none, none, some "R1"⟩⟩ "b").state.cart = [] ∧
    [(⟨"a", "pizza1", .undefined, []⟩ : CartItem), ⟨"b", "burger1", .num 1, []⟩].filter
      (fun c => c.key != "b") = [⟨"a", "pizza1", .undefined, []⟩] := by
  decide

/-- C7 (amended): for every cart with pairwise distinct keys and every key `k`
carried by an item, the cart after `deleteItem(k)` is the original sequence
without the item of key `k` and without the items whose quantity is not a
positive number; the items that stay are unchanged and in their original order
(so exactly one entry goes when the other quantities are positive).  When no
item has key `k` the call is not an error and the cart, the restaurant and the
storage are unchanged. -/
theorem deleteItem_removes_key_and_nonpositive (w : List Bool) (s : State) (key : String)
    (hnodup : (s.cart.map (fun c => c.key)).Nodup) :
    (s.cart.any (fun c => c.key == key) = true →
      (deleteItem w s key).state.cart =
        (s.cart.filter (fun c => c.key != key)).filter (fun c => c.quantity.gtZero)) ∧
    (s.cart.any (fun c => c.key == key) = false → deleteItem w s key = ⟨s, none⟩) := by
  constructor
  · intro hkey
    obtain ⟨i, hi⟩ := findIndex_isSome_of_any _ _ hkey
    simp only [deleteItem, deleteItemProg, hi, exec]
    rw [(run_drain w s _ _).1, eraseIdx_eq_filter_of_nodup s.cart key i hnodup hi]
  · intro hkey
    have h := findIndex_eq_none_of_any _ _ hkey
    simp [deleteItem, deleteItemProg, h, exec, run]

/-- Witness of C7 (amended): deleting `b` from the cart `a, b, c` where `c` has
no quantity leaves `a`; deleting an absent key changes nothing. -/
theorem deleteItem_removes_key_and_nonpositive_witness :
    ([(⟨"a", "pizza1", .num 2, []⟩ : CartItem), ⟨"b", "burger1", .num 1, []⟩,
      ⟨"c", "cola1", .undefined, []⟩].map (fun c => c.key)).Nodup ∧
    (deleteItem [] ⟨[⟨"a", "pizza1", .num 2, []⟩, ⟨"b", "burger1", .num 1, []⟩,
      ⟨"c", "cola1", .undefined, []⟩], some "R1", ⟨none, none, some "R1"⟩⟩ "b").state.cart
      = [⟨"a", "pizza1", .num 2, []⟩] ∧
    deleteItem [] ⟨[⟨"a", "pizza1", .num 2, []⟩, ⟨"b", "burger1", .num 1, []⟩,
      ⟨"c", "cola1", .undefined, []⟩], some "R1", ⟨none, none, some "R1"⟩⟩ "x"
      = ⟨⟨[⟨"a", "pizza1", .num 2, []⟩, ⟨"b", "burger1", .num 1, []⟩,
      ⟨"c", "cola1", .undefined, []⟩], some "R1", ⟨none, none, some "R1"⟩⟩, none⟩ :=
  ⟨by decide,
    ((deleteItem_removes_key_and_nonpositive []
      ⟨[⟨"a", "pizza1", .num 2, []⟩, ⟨"b", "burger1", .num 1, []⟩,
        ⟨"c", "cola1", .undefined, []⟩], some "R1", ⟨none, none, some "R1"⟩⟩ "b"
      (by decide)).1 (by decide)).trans (by decide),
    (deleteItem_removes_key_and_nonpositive []
      ⟨[⟨"a", "pizza1", .num 2, []⟩, ⟨"b", "burger1", .num 1, []⟩,
        ⟨"c", "cola1", .undefined, []⟩], some "R1", ⟨none, none, some "R1"⟩⟩ "x"
      (by decide)).2 (by decide)⟩

/-! ## Order of the memory update and the storage write -/

/-- C8 (what the code does): `addQuantity`, `removeQuantity`, `deleteItem`,
`updateCart`, `setCartRestaurant` and `clearCart` issue every state update
before their first storage call, and the in-memory cart and restaurant they
leave do not depend on the outcome of the storage calls.  `addCartItem` awaits
the write first and calls `setCart` after it: when the write rejects under
`clearFlag = true` the state is left untouched, the new item is not in the
cart. -/
theorem memory_before_persistence_except_addCartItem :
    (∀ cart key quantity, memoryFirstBody (addQuantityProg cart key quantity) = true) ∧
    (∀ cart key, memoryFirstBody (removeQuantityProg cart key) = true) ∧
    (∀ cart key, memoryFirstBody (deleteItemProg cart key) = true) ∧
    (∀ cart, memoryFirstBody (updateCartProg cart) = true) ∧
    (∀ id, memoryFirstBody (setCartRestaurantProg id) = true) ∧
    memoryFirstBody clearCartProg = true ∧
    (∀ w s key quantity,
      (addQuantity w s key quantity).state.cart = (addQuantity [] s key quantity).state.cart ∧
      (addQuantity w s key quantity).state.restaurant
        = (addQuantity [] s key quantity).state.restaurant) ∧
    (∀ w s key,
      (removeQuantity w s key).state.cart = (removeQuantity [] s key).state.cart ∧
      (removeQuantity w s key).state.restaurant = (removeQuantity [] s key).state.restaurant) ∧
    (∀ w s key,
      (deleteItem w s key).state.cart = (deleteItem [] s key).state.cart ∧
      (deleteItem w s key).state.restaurant = (deleteItem [] s key).state.restaurant) ∧
    (∀ w s cart,
      (updateCart w s cart).state.cart = (updateCart [] s cart).state.cart ∧
      (updateCart w s cart).state.restaurant = (updateCart [] s cart).state.restaurant) ∧
    (∀ w s id,
      (setCartRestaurant w s id).state.cart = (setCartRestaurant [] s id).state.cart ∧
      (setCartRestaurant w s id).state.restaurant
        = (setCartRestaurant [] s id).state.restaurant) ∧
    (∀ w s,
      (clearCart w s).state.cart = (clearCart [] s).state.cart ∧
      (clearCart w s).state.restaurant = (clearCart [] s).state.restaurant) ∧
    (∀ cart uuid food clearFlag,
      memoryFirstBody (addCartItemProg cart uuid food clearFlag) = false) ∧
    (∀ w s uuid food, addCartItem (false :: w) s uuid food true = ⟨s, some .storageFailure⟩) ∧
    addCartItem [false] ⟨[⟨"k", "pizza1", .num 1, []⟩], some "R1", ⟨none, none, some "R1"⟩⟩
        "u" ⟨none, "burger1", .num 1, []⟩ true
      = ⟨⟨[⟨"k", "pizza1", .num 1, []⟩], some "R1", ⟨none, none, some "R1"⟩⟩,
          some .storageFailure⟩ ∧
    (addCartItem [] ⟨[⟨"k", "pizza1", .num 1, []⟩], some "R1", ⟨none, none, some "R1"⟩⟩
        "u" ⟨none, "burger1", .num 1, []⟩ true).state.cart
      = [⟨"u", "burger1", .num 1, []⟩] := by
  refine ⟨?_, ?_, ?_, ?_, ?_, ?_, ?_, ?_, ?_, ?_, ?_, ?_, ?_, ?_, ?_, ?_⟩
  · intro cart key quantity
    unfold addQuantityProg
    cases findIndex (fun c => c.key == key) cart <;>
      simp [memoryFirstBody, memoryFirst, List.dropWhile, Effect.isWrite, Effect.isUpdate]
  · intro cart key
    unfold removeQuantityProg
    cases findIndex (fun c => c.key == key) cart
    · simp [memoryFirstBody]
    · simp only [memoryFirstBody, memoryFirst]
      split_ifs <;> simp [List.dropWhile, Effect.isWrite, Effect.isUpdate]
  · intro cart key
    unfold deleteItemProg
    cases findIndex (fun c => c.key == key) cart
    · simp [memoryFirstBody, memoryFirst]
    · simp only [memoryFirstBody, memoryFirst]
      split_ifs <;> simp [List.dropWhile, Effect.isWrite, Effect.isUpdate]
  · intro cart
    simp [updateCartProg, memoryFirstBody, memoryFirst, List.dropWhile, Effect.isWrite,
      Effect.isUpdate]
  · intro id
    simp [setCartRestaurantProg, memoryFirstBody, memoryFirst, List.dropWhile, Effect.isWrite,
      Effect.isUpdate]
  · simp [clearCartProg, memoryFirstBody, memoryFirst, List.dropWhile, Effect.isWrite,
      Effect.isUpdate]
  · intro w s key quantity
    simp only [addQuantity, addQuantityProg]
    cases findIndex (fun c => c.key == key) s.cart
    · simp [exec]
    · rcases w with _ | ⟨_ | _, w⟩ <;> simp [exec, run, step, Effect.isWrite]
  · intro w s key
    simp only [removeQuantity, removeQuantityProg]
    cases findIndex (fun c => c.key == key) s.cart
    · simp [exec]
    · simp only [exec]
      rw [(run_drain w s _ _).1, (run_drain w s _ _).2.1, (run_drain [] s _ _).1,
        (run_drain [] s _ _).2.1]
      exact ⟨rfl, rfl⟩
  · intro w s key
    simp only [deleteItem, deleteItemProg]
    cases findIndex (fun c => c.key == key) s.cart
    · simp [exec, run]
    · simp only [exec]
      rw [(run_drain w s _ _).1, (run_drain w s _ _).2.1, (run_drain [] s _ _).1,
        (run_drain [] s _ _).2.1]
      exact ⟨rfl, rfl⟩
  · intro w s cart
    rcases w with _ | ⟨_ | _, w⟩ <;>
      simp [updateCart, updateCartProg, exec, run, step, Effect.isWrite]
  · intro w s id
    rcases w with _ | ⟨_ | _, w⟩ <;>
      simp [setCartRestaurant, setCartRestaurantProg, exec, run, step, Effect.isWrite]
  · intro w s
    rcases w with _ | ⟨_ | _, _ | ⟨_ | _, w⟩⟩ <;>
      simp [clearCart, clearCartProg, exec, run, step, Effect.isWrite, Storage.remove]
  · intro cart uuid food clearFlag
    cases clearFlag <;>
      simp [addCartItemProg, memoryFirstBody, memoryFirst, List.dropWhile, Effect.isWrite,
        Effect.isUpdate]
  · intro w s uuid food
    simp [addCartItem, addCartItemProg, exec, run, Effect.isWrite]
  · decide
  · decide

/-! ## Shape of the cart after addCartItem -/

/-- C9: when the storage write resolves, `addCartItem(food, false)` yields the
items of the cart unchanged and in order followed by exactly one new item, and
`addCartItem(food, true)` yields the cart holding exactly that item; the new
item carries the payload fields of `food`, and in both cases the text written to
`cartItems` is the encoding of the new in-memory cart. -/
theorem addCartItem_result_shape (s : State) (uuid : String) (food : Food) :
    (addCartItem [] s uuid food false).state.cart = s.cart ++ [newItem uuid food] ∧
    (addCartItem [] s uuid food true).state.cart = [newItem uuid food] ∧
    (newItem uuid food)._id = food._id ∧
    (newItem uuid food).quantity = food.quantity ∧
    (newItem uuid food).rest = food.rest ∧
    (addCartItem [] s uuid food false).state.storage.cartItems
      = some (jsonStringify (addCartItem [] s uuid food false).state.cart) ∧
    (addCartItem [] s uuid food true).state.storage.cartItems
      = some (jsonStringify (addCartItem [] s uuid food true).state.cart) ∧
    (addCartItem [] s uuid food false).error = none ∧
    (addCartItem [] s uuid food true).error = none := by
  simp [addCartItem, addCartItemProg, exec, run, step, Effect.isWrite, newItem]

/-! ## removeQuantity -/

theorem filter_gtZero_of_allAtLeastOne (l : List CartItem) (h : allAtLeastOne l = true) :
    l.filter (fun c => c.quantity.gtZero) = l := by
  rw [List.filter_eq_self]
  intro c hc
  have h1 := (List.all_eq_true.mp h) c hc
  cases hq : c.quantity with
  | num n =>
    simp only [hq, Quantity.atLeastOne, decide_eq_true_eq] at h1
    simp only [Quantity.gtZero, decide_eq_true_eq]
    omega
  | undefined => simp [hq, Quantity.atLeastOne] at h1
  | null => simp [hq, Quantity.atLeastOne] at h1
  | nan => simp [hq, Quantity.atLeastOne] at h1

/-- C10: on a cart whose items all have quantity at least 1 and for a key `k`
carried by an item, `removeQuantity(k)` finds the (first) item of key `k`, of
quantity `n`: if `n > 1` the item stays at its position with quantity `n - 1`,
if `n = 1` the item is removed; every other item is unchanged and in order, and
the call does not fail.  In particular, on a cart holding one item of quantity
3, three successive calls leave quantity 2, then quantity 1, then the empty
cart with the restaurant set to `null`. -/
theorem removeQuantity_step (s : State) (key : String)
    (hq : allAtLeastOne s.cart = true)
    (hkey : s.cart.any (fun c => c.key == key) = true) :
    (∃ pre item post n, s.cart = pre ++ item :: post ∧ (∀ y ∈ pre, y.key ≠ key) ∧
      item.key = key ∧ item.quantity = .num n ∧ 1 ≤ n ∧
      (removeQuantity [] s key).state.cart =
        pre ++ (if 1 < n then [{ item with quantity := .num (n - 1) }] else []) ++ post ∧
      (removeQuantity [] s key).error = none) ∧
    (∀ (c : CartItem) (r : Option String) (st : Storage), c.quantity = .num 3 →
      (removeQuantity [] ⟨[c], r, st⟩ c.key).state.cart = [{ c with quantity := .num 2 }] ∧
      (removeQuantity [] (removeQuantity [] ⟨[c], r, st⟩ c.key).state c.key).state.cart
        = [{ c with quantity := .num 1 }] ∧
      (removeQuantity [] (removeQuantity [] (removeQuantity [] ⟨[c], r, st⟩ c.key).state
        c.key).state c.key).state.cart = [] ∧
      (removeQuantity [] (removeQuantity [] (removeQuantity [] ⟨[c], r, st⟩ c.key).state
        c.key).state c.key).state.restaurant = none) := by
  constructor
  · obtain ⟨i, hi⟩ := findIndex_isSome_of_any _ _ hkey
    obtain ⟨pre, x, post, hl, hlen, hx, hpre⟩ := findIndex_eq_some _ _ _ hi
    have hxk : x.key = key := by simpa using hx
    have hall := hq
    rw [hl] at hall
    simp only [allAtLeastOne, List.all_append, List.all_cons, Bool.and_eq_true] at hall
    obtain ⟨hpreq, hxq, hpostq⟩ := hall
    cases hn : x.quantity with
    | num n =>
      simp only [hn, Quantity.atLeastOne, decide_eq_true_eq] at hxq
      refine ⟨pre, x, post, n, hl, ?_, hxk, hn, hxq, ?_, ?_⟩
      · intro y hy
        simpa using hpre y hy
      · rw [removeQuantity_cart [] s key i hi, hl, ← hlen, updateAt_append]
        simp only [List.filter_append, List.filter_cons]
        rw [filter_gtZero_of_allAtLeastOne pre (by simpa [allAtLeastOne] using hpreq),
          filter_gtZero_of_allAtLeastOne post (by simpa [allAtLeastOne] using hpostq)]
        by_cases h1 : 1 < n
        · have h2 : 0 < n - 1 := by omega
          simp [hn, Quantity.sub, Quantity.gtZero, h1, h2]
        · have h2 : ¬ 0 < n - 1 := by omega
          simp [hn, Quantity.sub, Quantity.gtZero, h1, h2]
      · simp only [removeQuantity, removeQuantityProg, hi, exec]
        exact (run_drain [] s _ _).2.2.2
    | undefined => simp [hn, Quantity.atLeastOne] at hxq
    | null => simp [hn, Quantity.atLeastOne] at hxq
    | nan => simp [hn, Quantity.atLeastOne] at hxq
  · intro c r st hc
    simp [removeQuantity, removeQuantityProg, findIndex, updateAt, exec, hc, Quantity.sub,
      Quantity.gtZero, run, step, Effect.isWrite]

/-- Witness of C10: the middle item of three, of quantity 2, loses one unit. -/
theorem removeQuantity_step_witness :
    allAtLeastOne [⟨"a", "pizza1", .num 1, []⟩, ⟨"b", "burger1", .num 2, []⟩,
      ⟨"c", "cola1", .num 1, []⟩] = true ∧
    ([(⟨"a", "pizza1", .num 1, []⟩ : CartItem), ⟨"b", "burger1", .num 2, []⟩,
      ⟨"c", "cola1", .num 1, []⟩].any (fun c => c.key == "b") = true) ∧
    (removeQuantity [] (removeQuantity [] (removeQuantity []
      ⟨[⟨"k", "pizza1", .num 3, []⟩], some "R1", ⟨none, none, some "R1"⟩⟩
        "k").state "k").state "k").state.restaurant = none :=
  ⟨by decide, by decide,
    ((removeQuantity_step
      ⟨[⟨"a", "pizza1", .num 1, []⟩, ⟨"b", "burger1", .num 2, []⟩, ⟨"c", "cola1", .num 1, []⟩],
        some "R1", ⟨none, none, some "R1"⟩⟩ "b" (by decide) (by decide)).2
      ⟨"k", "pizza1", .num 3, []⟩ (some "R1") ⟨none, none, some "R1"⟩ rfl).2.2.2⟩

/-! ## addQuantity and the cart count -/

theorem get?_append_length {α : Type} (pre post : List α) (x : α) :
    (pre ++ x :: post).get? pre.length = some x := by
  induction pre with
  | nil => rfl
  | cons a as ih => simpa using ih

/-- The answer of `checkItemCart` when `x` is the first item of catalog id `itemId`. -/
theorem checkItemCartValue_first (pre post : List CartItem) (x : CartItem) (itemId : String)
    (hx : x._id = itemId) (hpre : ∀ y ∈ pre, y._id ≠ itemId) :
    checkItemCartValue (pre ++ x :: post) itemId
      = .ok { exist := true, quantity := x.quantity, key := some x.key } := by
  have hi : findIndex (fun c => c._id == itemId) (pre ++ x :: post) = some pre.length := by
    induction pre with
    | nil => simp [findIndex, hx]
    | cons a as ih =>
      have ha : a._id ≠ itemId := hpre a (by simp)
      have := ih (fun y hy => hpre y (by simp [hy]))
      simp [findIndex, ha, this]
  simp only [checkItemCartValue, hi]
  rw [get?_append_length]

/-- C12: `checkItemCart(i)` never throws; it answers `exist: false, quantity: 0`
exactly when no item of the cart has catalog id `i` (so always on the empty
cart), and otherwise answers `exist: true` with the quantity and the key of the
first item, in cart order, whose catalog id is `i`; the cart, the restaurant
and the storage are the same after the call. -/
theorem checkItemCart_first_match (s : State) (itemId : String) :
    ((checkItemCart s itemId).value = .ok { exist := false, quantity := .num 0, key := none }
      ↔ ∀ c ∈ s.cart, c._id ≠ itemId) ∧
    ((∃ c ∈ s.cart, c._id = itemId) →
      ∃ pre x post, s.cart = pre ++ x :: post ∧ (∀ y ∈ pre, y._id ≠ itemId) ∧ x._id = itemId ∧
        (checkItemCart s itemId).value
          = .ok { exist := true, quantity := x.quantity, key := some x.key }) ∧
    (checkItemCart s itemId).state = s ∧
    (checkItemCart ⟨[], s.restaurant, s.storage⟩ itemId).value
      = .ok { exist := false, quantity := .num 0, key := none } := by
  have hfound : (∃ c ∈ s.cart, c._id = itemId) →
      ∃ pre x post, s.cart = pre ++ x :: post ∧ (∀ y ∈ pre, y._id ≠ itemId) ∧ x._id = itemId ∧
        (checkItemCart s itemId).value
          = .ok { exist := true, quantity := x.quantity, key := some x.key } := by
    rintro ⟨c, hc, hci⟩
    have hany : s.cart.any (fun c => c._id == itemId) = true :=
      List.any_eq_true.mpr ⟨c, hc, by simpa using hci⟩
    obtain ⟨i, hi⟩ := findIndex_isSome_of_any _ _ hany
    obtain ⟨pre, x, post, hl, _, hx, hpre⟩ := findIndex_eq_some _ _ _ hi
    have hxi : x._id = itemId := by simpa using hx
    have hpre1 : ∀ y ∈ pre, y._id ≠ itemId := by
      intro y hy
      simpa using hpre y hy
    refine ⟨pre, x, post, hl, hpre1, hxi, ?_⟩
    simp only [checkItemCart]
    rw [hl]
    exact checkItemCartValue_first pre post x itemId hxi hpre1
  refine ⟨⟨?_, ?_⟩, hfound, ?_, ?_⟩
  · intro hval c hc hci
    obtain ⟨pre, x, post, _, _, _, hv⟩ := hfound ⟨c, hc, hci⟩
    rw [hv] at hval
    simp at hval
  · intro hnone
    have h : findIndex (fun c => c._id == itemId) s.cart = none := by
      rw [findIndex_eq_none]
      intro x hx
      simpa using hnone x hx
    simp [checkItemCart, checkItemCartValue, h]
  · simp [checkItemCart, run]
  · simp [checkItemCart, checkItemCartValue, findIndex]

/-- Witness of C12: two lines of the same dish, the first one is reported. -/
theorem checkItemCart_first_match_witness :
    (∃ c ∈ [(⟨"a", "cola1", .num 1, []⟩ : CartItem), ⟨"b", "pizza1", .num 2, []⟩,
      ⟨"c", "pizza1", .num 5, []⟩], c._id = "pizza1") ∧
    (∃ pre x post, [(⟨"a", "cola1", .num 1, []⟩ : CartItem), ⟨"b", "pizza1", .num 2, []⟩,
        ⟨"c", "pizza1", .num 5, []⟩] = pre ++ x :: post ∧
      (∀ y ∈ pre, y._id ≠ "pizza1") ∧ x._id = "pizza1" ∧
      (checkItemCart ⟨[⟨"a", "cola1", .num 1, []⟩, ⟨"b", "pizza1", .num 2, []⟩,
        ⟨"c", "pizza1", .num 5, []⟩], some "R1", ⟨none, none, some "R1"⟩⟩ "pizza1").value
        = .ok { exist := true, quantity := x.quantity, key := some x.key }) :=
  ⟨⟨⟨"b", "pizza1", .num 2, []⟩, by decide, rfl⟩,
    (checkItemCart_first_match ⟨[⟨"a", "cola1", .num 1, []⟩, ⟨"b", "pizza1", .num 2, []⟩,
        ⟨"c", "pizza1", .num 5, []⟩], some "R1", ⟨none, none, some "R1"⟩⟩ "pizza1").2.1
      ⟨⟨"b", "pizza1", .num 2, []⟩, by decide, rfl⟩⟩

/-! ## Count consistency -/

/-- C14, as stated, fails twice.  With every collaborator succeeding, the location
put in place of a saved address keeps the `deliveryAddress` of the saved
address.  And when the removal of the token from storage rejects, the `catch`
block is reached before `setLocation` and the location keeps its id. -/
theorem logout_location_counterexample :
    (logout ⟨true, true, true⟩
      ⟨⟨[], none, ⟨some "t", none, none⟩⟩, some "t",
        ⟨"Home", 40, 44, some "12 Main St", some "addr1"⟩,
        some (some ⟨"User", "u1"⟩), [], 0⟩).context.location
      = ⟨"Selected Location", 40, 44, some "12 Main St", none⟩ ∧
    (logout ⟨false, true, true⟩
      ⟨⟨[], none, ⟨some "t", none, none⟩⟩, some "t",
        ⟨"Home", 40, 44, some "12 Main St", some "addr1"⟩,
        some (some ⟨"User", "u1"⟩), [], 0⟩).context.location
      = ⟨"Home", 40, 44, some "12 Main St", some "addr1"⟩ := by
  decide

/-- C14 (amended): for every current location that carries a saved-address id,
after a logout whose removal of the token from storage resolves the location
has the same latitude and longitude, the label `Selected Location`, no id and
the same `deliveryAddress` as before; a location without an id is left
unchanged by logout. -/
theorem logout_location_reset (o : Outcomes) (a : Context) :
    (o.removeItem = true → truthy a.location._id = true →
      (logout o a).context.location =
        { label := "Selected Location", latitude := a.location.latitude,
          longitude := a.location.longitude,
          deliveryAddress := a.location.deliveryAddress, _id := none }) ∧
    (a.location._id = none → (logout o a).context.location = a.location) := by
  obtain ⟨r, e, rs⟩ := o
  constructor
  · intro hr hid
    simp only at hr
    subst hr
    rcases hdp : a.dataProfile with _ | _ | p <;> cases e <;> cases rs <;>
      simp [logout, logoutProg, hid, hdp, runSession, SessionEffect.failure, sessionStep]
  · intro hid
    have ht : truthy a.location._id = false := by simp [hid, truthy]
    rcases hdp : a.dataProfile with _ | _ | p <;> cases r <;> cases e <;> cases rs <;>
      simp [logout, logoutProg, ht, hdp, runSession, SessionEffect.failure, sessionStep]

/-- Witness of C14 (amended). -/
theorem logout_location_reset_witness :
    (truthy (some "addr1") = true) ∧
    (logout ⟨true, true, true⟩
      ⟨⟨[], none, ⟨some "t", none, none⟩⟩, some "t",
        ⟨"Home", 40, 44, some "12 Main St", some "addr1"⟩,
        some (some ⟨"User", "u1"⟩), [], 0⟩).context.location
      = ⟨"Selected Location", 40, 44, some "12 Main St", none⟩ ∧
    (logout ⟨true, true, true⟩
      ⟨⟨[], none, ⟨some "t", none, none⟩⟩, some "t",
        ⟨"Current Location", 40, 44, none, none⟩,
        some (some ⟨"User", "u1"⟩), [], 0⟩).context.location
      = ⟨"Current Location", 40, 44, none, none⟩ :=
  ⟨by decide,
    (logout_location_reset ⟨true, true, true⟩
      ⟨⟨[], none, ⟨some "t", none, none⟩⟩, some "t",
        ⟨"Home", 40, 44, some "12 Main St", some "addr1"⟩,
        some (some ⟨"User", "u1"⟩), [], 0⟩).1 rfl (by decide),
    (logout_location_reset ⟨true, true, true⟩
      ⟨⟨[], none, ⟨some "t", none, none⟩⟩, some "t",
        ⟨"Current Location", 40, 44, none, none⟩,
        some (some ⟨"User", "u1"⟩), [], 0⟩).2 rfl⟩

/-! ## Logout without a profile -/

/-- C15 (what the code does at the failing input): with no profile data
(`dataProfile` is `undefined`, or its `profile` is `null`) and every
collaborator succeeding, the token is cleared in storage and in memory, but
building the argument of `client.cache.evict` throws a `TypeError`; the `catch`
block logs it and `client.resetStore()` is never called.  With a profile the
same call evicts the entry and resets the store. -/
theorem logout_without_profile_skips_resetStore :
    (∀ (cs : State) (token : Option String) (loc : Location) (ev : List String) (n : Nat),
      (logout ⟨true, true, true⟩ ⟨cs, token, loc, none, ev, n⟩).context.resets = n ∧
      (logout ⟨true, true, true⟩ ⟨cs, token, loc, none, ev, n⟩).logged
        = some (.js .typeError) ∧
      (logout ⟨true, true, true⟩ ⟨cs, token, loc, none, ev, n⟩).context.token = none ∧
      (logout ⟨true, true, true⟩ ⟨cs, token, loc, none, ev, n⟩).context.cartState.storage.token
        = none ∧
      (logout ⟨true, true, true⟩ ⟨cs, token, loc, some none, ev, n⟩).context.resets = n ∧
      (logout ⟨true, true, true⟩ ⟨cs, token, loc, some none, ev, n⟩).logged
        = some (.js .typeError)) ∧
    (logout ⟨true, true, true⟩
      ⟨⟨[], none, ⟨none, none, none⟩⟩, none, ⟨"Current Location", 40, 44, none, none⟩,
        none, [], 0⟩)
      = ⟨⟨⟨[], none, ⟨none, none, none⟩⟩, none, ⟨"Current Location", 40, 44, none, none⟩,
        none, [], 0⟩, none, some (.js .typeError)⟩ ∧
    (logout ⟨true, true, true⟩
      ⟨⟨[], none, ⟨some "t", none, none⟩⟩, some "t", ⟨"Current Location", 40, 44, none, none⟩,
        some (some ⟨"User", "u1"⟩), [], 0⟩)
      = ⟨⟨⟨[], none, ⟨none, none, none⟩⟩, none, ⟨"Current Location", 40, 44, none, none⟩,
        some (some ⟨"User", "u1"⟩), ["User:u1"], 1⟩, none, none⟩ := by
  refine ⟨?_, by decide, by decide⟩
  intro cs token loc ev n
  cases h : truthy loc._id <;>
    simp [logout, logoutProg, h, runSession, SessionEffect.failure, sessionStep, Storage.remove]

/-! ## Logout: no error, and calling it twice -/

/-- C16, as stated, fails: when the removal of the token rejects in the first
call and resolves in the second, one call leaves the token in place and the
session logged in, two calls leave no token and the session logged out. -/
theorem logout_idempotence_counterexample :
    (logout ⟨false, true, true⟩
      ⟨⟨[], none, ⟨some "t", none, none⟩⟩, some "t", ⟨"Current Location", 40, 44, none, none⟩,
        some (some ⟨"User", "u1"⟩), [], 0⟩).context.token = some "t" ∧
    isLoggedIn (logout ⟨false, true, true⟩
      ⟨⟨[], none, ⟨some "t", none, none⟩⟩, some "t", ⟨"Current Location", 40, 44, none, none⟩,
        some (some ⟨"User", "u1"⟩), [], 0⟩).context = true ∧
    (logout ⟨true, true, true⟩ (logout ⟨false, true, true⟩
      ⟨⟨[], none, ⟨some "t", none, none⟩⟩, some "t", ⟨"Current Location", 40, 44, none, none⟩,
        some (some ⟨"User", "u1"⟩), [], 0⟩).context).context.token = none ∧
    isLoggedIn (logout ⟨true, true, true⟩ (logout ⟨false, true, true⟩
      ⟨⟨[], none, ⟨some "t", none, none⟩⟩, some "t", ⟨"Current Location", 40, 44, none, none⟩,
        some (some ⟨"User", "u1"⟩), [], 0⟩).context).context = false := by
  decide

/-- The token after one `logout`: cleared in memory and in storage when the
removal resolves, untouched otherwise. -/
theorem logout_token (o : Outcomes) (a : Context) :
    (logout o a).thrown = none ∧
    (logout o a).context.dataProfile = a.dataProfile ∧
    (logout o a).context.token = (if o.removeItem then none else a.token) ∧
    (logout o a).context.cartState.storage.token
      = (if o.removeItem then none else a.cartState.storage.token) := by
  obtain ⟨r, e, rs⟩ := o
  rcases hdp : a.dataProfile with _ | _ | p <;> cases ht : truthy a.location._id <;>
    cases r <;> cases e <;> cases rs <;>
    simp [logout, logoutProg, ht, hdp, runSession, SessionEffect.failure, sessionStep,
      Storage.remove]

/-- C16 (amended): for every session state and every outcome of the collaborators
(the removal of the token, the cache eviction and the store reset may each
fail), `logout` does not propagate an error to its caller; and calling it twice
in a row leaves the same token, in memory and in storage, and the same
`isLoggedIn` as calling it once, provided the removal of the token resolved in
the first call or rejects in the second as well. -/
theorem logout_never_throws_idempotent (o1 o2 : Outcomes) (a : Context)
    (h : o1.removeItem = true ∨ o2.removeItem = false) :
    (logout o1 a).thrown = none ∧
    (logout o2 (logout o1 a).context).thrown = none ∧
    (logout o2 (logout o1 a).context).context.token = (logout o1 a).context.token ∧
    (logout o2 (logout o1 a).context).context.cartState.storage.token
      = (logout o1 a).context.cartState.storage.token ∧
    isLoggedIn (logout o2 (logout o1 a).context).context = isLoggedIn (logout o1 a).context := by
  obtain ⟨h1, h2, h3, h4⟩ := logout_token o1 a
  obtain ⟨k1, k2, k3, k4⟩ := logout_token o2 (logout o1 a).context
  refine ⟨h1, k1, ?_, ?_, ?_⟩
  · rw [k3, h3]
    rcases h with h | h <;> simp [h]
  · rw [k4, h4]
    rcases h with h | h <;> simp [h]
  · unfold isLoggedIn
    rw [k2, k3, h3]
    rcases h with h | h <;> simp [h]

/-- Witness of C16 (amended): two calls whose collaborators all succeed. -/
theorem logout_never_throws_idempotent_witness :
    ((⟨true, true, true⟩ : Outcomes).removeItem = true
      ∨ (⟨true, false, true⟩ : Outcomes).removeItem = false) ∧
    (logout ⟨true, false, true⟩ (logout ⟨true, true, true⟩
      ⟨⟨[], none, ⟨some "t", none, none⟩⟩, some "t", ⟨"Current Location", 40, 44, none, none⟩,
        some (some ⟨"User", "u1"⟩), [], 0⟩).context).context.token
      = (logout ⟨true, true, true⟩
      ⟨⟨[], none, ⟨some "t", none, none⟩⟩, some "t", ⟨"Current Location", 40, 44, none, none⟩,
        some (some ⟨"User", "u1"⟩), [], 0⟩).context.token :=
  ⟨Or.inl rfl,
    (logout_never_throws_idempotent ⟨true, true, true⟩ ⟨true, false, true⟩
      ⟨⟨[], none, ⟨some "t", none, none⟩⟩, some "t", ⟨"Current Location", 40, 44, none, none⟩,
        some (some ⟨"User", "u1"⟩), [], 0⟩ (Or.inl rfl)).2.2.1⟩

/-! ## clearCart -/

/-- C18, as stated, fails: after `setCartRestaurant("")` the key `restaurant` holds
the empty string, which `restaurant || null` turns into `null`; the startup load
sets the restaurant to `null`, not to the stored value. -/
theorem startupLoad_defaults_counterexample :
    (setCartRestaurant [] ⟨[], none, ⟨none, none, none⟩⟩ "").state
      = ⟨[], some "", ⟨none, none, some ""⟩⟩ ∧
    (startupLoad true ⟨[], some "", ⟨none, none, some ""⟩⟩).state.restaurant = none ∧
    (startupLoad true ⟨[], some "", ⟨none, none, some ""⟩⟩).state.restaurant
      ≠ (⟨none, none, some ""⟩ : Storage).restaurant := by
  decide

/-- C18 (amended): the startup load of a mounted component sets the restaurant to
the stored `restaurant` value, or to `null` when that key is absent or holds the
empty string, and sets the cart to the decoded `cartItems` value, or to the
empty sequence when that key is absent or holds the empty string; if the
component was torn down before the reads resolved, the load applies nothing
and the cart, the restaurant and the storage keep their prior values. -/
theorem startupLoad_defaults_and_guard (s : State) :
    (∀ r, s.storage.restaurant = some r → r ≠ "" →
      (startupLoad true s).state.restaurant = some r) ∧
    (s.storage.restaurant = none ∨ s.storage.restaurant = some "" →
      (startupLoad true s).state.restaurant = none) ∧
    (∀ items, s.storage.cartItems = some (.encoded items) →
      (startupLoad true s).state.cart = items ∧ (startupLoad true s).error = none) ∧
    (s.storage.cartItems = none ∨ s.storage.cartItems = some .empty →
      (startupLoad true s).state.cart = [] ∧ (startupLoad true s).error = none) ∧
    (startupLoad true s).state.storage = s.storage ∧
    startupLoad false s = ⟨s, none⟩ := by
  refine ⟨?_, ?_, ?_, ?_, ?_, ?_⟩
  · intro r hr hne
    rcases hc : s.storage.cartItems with _ | _ | _ | _ <;>
      simp [startupLoad, hr, hc, hne, jsonParse, Option.filter]
  · intro h
    rcases hc : s.storage.cartItems with _ | _ | _ | _ <;> rcases h with h | h <;>
      simp [startupLoad, h, hc, jsonParse, Option.filter]
  · intro items hi
    simp [startupLoad, hi, jsonParse]
  · intro h
    rcases h with h | h <;> simp [startupLoad, h]
  · rcases hc : s.storage.cartItems with _ | _ | _ | _ <;> simp [startupLoad, hc, jsonParse]
  · simp [startupLoad]

/-- Witness of C18 (amended): restaurant `R1` and a cart of one item are stored. -/
theorem startupLoad_defaults_and_guard_witness :
    ((⟨none, some (.encoded [⟨"k", "pizza1", .num 2, []⟩]), some "R1"⟩ : Storage).restaurant
      = some "R1") ∧ "R1" ≠ "" ∧
    (startupLoad true ⟨[], none,
      ⟨none, some (.encoded [⟨"k", "pizza1", .num 2, []⟩]), some "R1"⟩⟩).state.restaurant
      = some "R1" ∧
    (startupLoad true ⟨[], none,
      ⟨none, some (.encoded [⟨"k", "pizza1", .num 2, []⟩]), some "R1"⟩⟩).state.cart
      = [⟨"k", "pizza1", .num 2, []⟩] :=
  ⟨rfl, by decide,
    (startupLoad_defaults_and_guard ⟨[], none,
      ⟨none, some (.encoded [⟨"k", "pizza1", .num 2, []⟩]), some "R1"⟩⟩).1 "R1" rfl (by decide),
    ((startupLoad_defaults_and_guard ⟨[], none,
      ⟨none, some (.encoded [⟨"k", "pizza1", .num 2, []⟩]), some "R1"⟩⟩).2.2.1
      [⟨"k", "pizza1", .num 2, []⟩] rfl).1⟩

/-! ## Frame of the item-sequence writes and of setCartRestaurant -/

/-- C19: whatever the storage calls do, `updateCart(X)` and
`addCartItem(food, clearFlag)` leave the in-memory restaurant and the stored
`restaurant` key as they were (also for the empty `X` and for
`clearFlag = true`), and `setCartRestaurant(id)` sets the in-memory restaurant
to `id` and leaves the in-memory cart and the stored `cartItems` key as they
were. -/
theorem restaurant_frame (w : List Bool) (s : State) (X : List CartItem) (uuid : String)
    (food : Food) (clearFlag : Bool) (id : String) :
    (updateCart w s X).state.restaurant = s.restaurant ∧
    (updateCart w s X).state.storage.restaurant = s.storage.restaurant ∧
    (updateCart w s []).state.restaurant = s.restaurant ∧
    (updateCart w s []).state.storage.restaurant = s.storage.restaurant ∧
    (addCartItem w s uuid food clearFlag).state.restaurant = s.restaurant ∧
    (addCartItem w s uuid food clearFlag).state.storage.restaurant = s.storage.restaurant ∧
    (setCartRestaurant w s id).state.restaurant = some id ∧
    (setCartRestaurant w s id).state.cart = s.cart ∧
    (setCartRestaurant w s id).state.storage.cartItems = s.storage.cartItems := by
  rcases w with _ | ⟨_ | _, w⟩ <;> cases clearFlag <;>
    simp [updateCart, updateCartProg, addCartItem, addCartItemProg, setCartRestaurant,
      setCartRestaurantProg, exec, run, step, Effect.isWrite]

/-! ## The cart survives logout -/

/-- C20: for every context and every outcome of the collaborators, `logout`
leaves the in-memory cart, the in-memory restaurant and the stored `cartItems`
and `restaurant` keys as they were, and no statement of its body is a storage
call on `cartItems` or `restaurant`: its only storage call is the removal of
`token`. -/
theorem logout_keeps_cart (o : Outcomes) (a : Context) :
    (logout o a).context.cartState.cart = a.cartState.cart ∧
    (logout o a).context.cartState.restaurant = a.cartState.restaurant ∧
    (logout o a).context.cartState.storage.cartItems = a.cartState.storage.cartItems ∧
    (logout o a).context.cartState.storage.restaurant = a.cartState.storage.restaurant ∧
    (logoutProg a.location a.dataProfile).all
      (fun e => !e.touches .cartItems && !e.touches .restaurant) = true ∧
    (logoutProg a.location a.dataProfile).filter (fun e => e.touches .token)
      = [.removeItem .token] := by
  obtain ⟨r, e, rs⟩ := o
  rcases hdp : a.dataProfile with _ | _ | p <;> cases ht : truthy a.location._id <;>
    cases r <;> cases e <;> cases rs <;>
    simp [logout, logoutProg, ht, hdp, runSession, SessionEffect.failure, sessionStep,
      Storage.remove, SessionEffect.touches]

end UserContext
